import Mathlib

/-!
# Shallow embedding of `src/src/index.ts` (GitHub stats card service)

This file embeds the aggregation + rendering pipeline of the repository's
single source file `src/src/index.ts` and proves the claims about it.

Modelling conventions:
* JSON integers (star/fork counts, repo counts) are `Nat`; a field that may
  be absent from the upstream JSON is an `Option`.
* The JavaScript expression `x || 0` on an optional non-negative count is
  `Option.getD x 0` (both send an absent value and `0` to `0`).
* The JavaScript object `languages` (string keys, insertion-ordered, value
  updated in place) is an association list `List (String × Nat)`; the
  `bump` operation mirrors `languages[l] = (languages[l] || 0) + 1`.
* `Array.prototype.sort` with comparator `(a, b) => b - a` is, per the
  ECMAScript specification, a stable sort by descending value; it is
  embedded as `List.insertionSort` with the reflexive total relation
  `byCountDesc` (insertion sort is stable).
* Percentages are exact rationals `ℚ` (the host computes in binary floating
  point; every claim proved about percentages is about the exact values).
* Host number-to-string formatting of non-integer numbers is embedded by
  the deterministic `ratToString`; no claim depends on its exact digits.
-/

namespace GitState

/-- One repository record as consumed by `buildResponse` (lines 178-184):
only `stargazers_count`, `forks_count` and `language` are read. -/
structure Repo where
  stargazers_count : Option Nat
  forks_count : Option Nat
  language : Option String
deriving Repr, DecidableEq

/-- The profile record as consumed by `buildResponse` (lines 196-197):
only `login` and `public_repos` are read. -/
structure UserData where
  login : String
  public_repos : Nat
deriving Repr, DecidableEq

/-- One entry of `topLanguages` (source line 13 / lines 189-193). -/
structure LangStat where
  name : String
  count : Nat
  percentage : ℚ
deriving Repr, DecidableEq

/-- The `GitHubStats` interface (source lines 7-14). -/
structure GitHubStats where
  username : String
  totalRepos : Nat
  totalStars : Nat
  totalForks : Nat
  totalCommits : Nat
  topLanguages : List LangStat
deriving Repr, DecidableEq

/-- A theme palette (source lines 16-20); `bg0`/`bg1` are the two entries
of the `bg` array. -/
structure Theme where
  bg0 : String
  bg1 : String
  border : String
  text : String
  title : String
  icon : String
  ring : String
deriving Repr, DecidableEq

/-- `themes.default` (source line 17). -/
def themeDefault : Theme :=
  { bg0 := "#0d1117", bg1 := "#161b22", border := "#30363d", text := "#c9d1d9",
    title := "#58a6ff", icon := "#8b949e", ring := "#2f81f7" }

/-- `themes.ocean` (source line 18). -/
def themeOcean : Theme :=
  { bg0 := "#0f172a", bg1 := "#1e293b", border := "#334155", text := "#94a3b8",
    title := "#38bdf8", icon := "#64748b", ring := "#0ea5e9" }

/-- `themes.midnight` (source line 19). -/
def themeMidnight : Theme :=
  { bg0 := "#000000", bg1 := "#1a1a1a", border := "#333333", text := "#eeeeee",
    title := "#ff006e", icon := "#888888", ring := "#ffbe0b" }

/-- The `themes` table (source lines 16-20), as an association list in
declaration order. -/
def themes : List (String × Theme) :=
  [("default", themeDefault), ("ocean", themeOcean), ("midnight", themeMidnight)]

/-- Property access `themes[key]` for a string key: `some` palette when the
key is one of the three declared names, otherwise `none` (`undefined`). -/
def themeLookup (key : String) : Option Theme :=
  (themes.find? (fun p => p.1 == key)).map (fun p => p.2)

/-- The `langColors` table (source lines 23-27). -/
def langColors : List (String × String) :=
  [("JavaScript", "#f1e05a"), ("TypeScript", "#3178c6"), ("Python", "#3572A5"),
   ("Java", "#b07219"), ("Go", "#00ADD8"), ("Rust", "#dea584"),
   ("HTML", "#e34c26"), ("CSS", "#563d7c"), ("Vue", "#41b883"), ("React", "#61dafb")]

/-- Property access `langColors[name]`. -/
def langColorLookup (name : String) : Option String :=
  (langColors.find? (fun p => p.1 == name)).map (fun p => p.2)

/-!
## Aggregation (`buildResponse`, source lines 174-202)
-/

/-- The JavaScript truthiness test `if (repo.language)` (line 181): the
language participates only when present and non-empty. -/
def langOf (r : Repo) : Option String :=
  match r.language with
  | some l => if l.isEmpty then none else some l
  | none => none

/-- `languages[l] = (languages[l] || 0) + 1` (line 182) on an
insertion-ordered string-keyed object: bump the value in place when the key
exists, otherwise append the key with value `1`. -/
def bump (m : List (String × Nat)) (l : String) : List (String × Nat) :=
  match m with
  | [] => [(l, 1)]
  | (k, c) :: rest => if k = l then (k, c + 1) :: rest else (k, c) :: bump rest l

/-- The mutable state of the `repos.forEach` loop (lines 174-184):
`totalStars`, `totalForks` and the `languages` object. -/
structure AggState where
  totalStars : Nat
  totalForks : Nat
  languages : List (String × Nat)
deriving Repr, DecidableEq

/-- The language update of lines 181-183. -/
def langStep (m : List (String × Nat)) (r : Repo) : List (String × Nat) :=
  match langOf r with
  | some l => bump m l
  | none => m

/-- The body of `repos.forEach` (lines 178-184). -/
def aggStep (s : AggState) (r : Repo) : AggState :=
  { totalStars := s.totalStars + r.stargazers_count.getD 0
    totalForks := s.totalForks + r.forks_count.getD 0
    languages := langStep s.languages r }

/-- The whole `repos.forEach` loop started from the initial state of
lines 174-176. -/
def aggLoop (repos : List Repo) : AggState :=
  repos.foldl aggStep ⟨0, 0, []⟩

/-- The `languages` object after the loop, i.e. `Object.entries(languages)`
in insertion order (line 187). -/
def langCounts (repos : List Repo) : List (String × Nat) :=
  (aggLoop repos).languages

/-- One step of collecting language names in order of first encounter:
the reference order C2's tie-break clause speaks about. -/
def firstStep (acc : List String) (r : Repo) : List String :=
  match langOf r with
  | some l => if l ∈ acc then acc else acc ++ [l]
  | none => acc

/-- The language names of the repository list in order of first encounter
(the spec's tie-break order for equal counts). -/
def firstLangs (repos : List Repo) : List String :=
  repos.foldl firstStep []

/-- `Object.values(languages).reduce((sum, count) => sum + count, 0)`
(line 186). -/
def totalLangCount (repos : List Repo) : Nat :=
  ((langCounts repos).map (fun e => e.2)).foldl (fun sum count => sum + count) 0

/-- The sort comparator `(, a), (, b)) => b - a` of line 188: `a` precedes
`b` exactly when `b`'s count is at most `a`'s. -/
def byCountDesc (a b : String × Nat) : Prop := b.2 ≤ a.2

instance : DecidableRel byCountDesc := fun a b => Nat.decLe b.2 a.2

instance : IsTotal (String × Nat) byCountDesc :=
  ⟨fun a b => Nat.le_total b.2 a.2⟩

instance : IsTrans (String × Nat) byCountDesc :=
  ⟨fun _ _ _ h1 h2 => Nat.le_trans h2 h1⟩

/-- `.sort(([, a], [, b]) => b - a)` (line 188): a stable sort by count
descending, embedded as stable insertion sort. -/
def sortDesc (l : List (String × Nat)) : List (String × Nat) :=
  List.insertionSort byCountDesc l

/-- `totalCount ? (count / totalCount) * 100 : 0` (line 192), over exact
rationals. -/
def percentage (count totalCount : Nat) : ℚ :=
  if totalCount ≠ 0 then ((count : ℚ) / (totalCount : ℚ)) * 100 else 0

/-- `topLanguages` (lines 187-193): sorted entries annotated with their
percentage of the total language count. -/
def topLanguagesOf (repos : List Repo) : List LangStat :=
  (sortDesc (langCounts repos)).map
    (fun e => { name := e.1, count := e.2, percentage := percentage e.2 (totalLangCount repos) })

/-- The construction of the `stats` value (lines 195-202). -/
def aggregate (userData : UserData) (repos : List Repo) : GitHubStats :=
  { username := userData.login
    totalRepos := userData.public_repos
    totalStars := (aggLoop repos).totalStars
    totalForks := (aggLoop repos).totalForks
    totalCommits := 0
    topLanguages := topLanguagesOf repos }

/-!
## SVG renderer (`generateSVG`, source lines 29-101)

The source builds one template literal; here it is the same concatenation,
split into named pieces that correspond to consecutive source lines.
Literal `\x7b` / `\x7d` escapes denote the brace characters of the CSS
text.
-/

/-- `icons.repo` (source line 31). -/
def iconRepo : String :=
  "M3 2.5c0-.27.22-.5.5-.5h14c.27 0 .5.22.5.5v15c0 .27-.22.5-.5.5h-1.5a.75.75 0 0 1 0-1.5h1V3.5H3.5V14h1a.75.75 0 0 1 0 1.5h-1c-.27 0-.5-.22-.5-.5v-12.5Z M9.75 7.75a.75.75 0 0 0 0 1.5h4.5a.75.75 0 0 0 0-1.5h-4.5Z M9.75 11.25a.75.75 0 0 0 0 1.5h2.5a.75.75 0 0 0 0-1.5h-2.5Z"

/-- `icons.star` (source line 32). -/
def iconStar : String :=
  "M8 .25a.75.75 0 0 1 .673.418l1.882 3.815 4.21.612a.75.75 0 0 1 .416 1.279l-3.046 2.97.719 4.192a.75.75 0 0 1-1.088.791L8 12.347l-3.766 1.98a.75.75 0 0 1-1.088-.79l.72-4.194L.818 6.374a.75.75 0 0 1 .416-1.28l4.21-.611L7.327.668A.75.75 0 0 1 8 .25Z"

/-- `icons.fork` (source line 33). -/
def iconFork : String :=
  "M5 3.25a.75.75 0 1 1-1.5 0 .75.75 0 0 1 1.5 0Zm0 2.122a2.25 2.25 0 1 0-1.5 0v.878A2.25 2.25 0 0 0 5.75 8.5h1.5v2.128a2.251 2.251 0 1 0 1.5 0V8.5h1.5a2.25 2.25 0 0 0 2.25-2.25v-.878a2.25 2.25 0 1 0-1.5 0v.878a.75.75 0 0 1-.75.75h-4.5A.75.75 0 0 1 5 6.25v-.878Zm3.75 7.378a.75.75 0 1 1-1.5 0 .75.75 0 0 1 1.5 0Zm3-8.75a.75.75 0 1 0 0-1.5.75.75 0 0 0 0 1.5Z"

/-- `icons.commit` (source line 34). -/
def iconCommit : String :=
  "M10.5 7.75a2.5 2.5 0 1 1-5 0 2.5 2.5 0 0 1 5 0Zm1.43.75a4.002 4.002 0 0 1-7.86 0H.75a.75.75 0 1 1 0-1.5h3.32a4.001 4.001 0 0 1 7.86 0h3.32a.75.75 0 1 1 0 1.5h-3.32Z"

/-- `const width = 460` (source line 40). -/
def width : Nat := 460

/-- `const height = 200` (source line 41). -/
def height : Nat := 200

/-- `value.toLocaleString()` for a non-negative integer: decimal digits
grouped in threes by commas. The input char list is the reversed digit
string; the output is reversed and comma-grouped. -/
def group3 : List Char → List Char
  | a :: b :: c :: d :: rest => a :: b :: c :: ',' :: group3 (d :: rest)
  | l => l

/-- `value.toLocaleString()` (source line 59). -/
def toLocaleString (n : Nat) : String :=
  ⟨(group3 (Nat.repr n).data.reverse).reverse⟩

/-- Deterministic rendering of a rational number into the template (the
host prints a binary floating-point value here; no claim depends on the
digits). -/
def ratToString (q : ℚ) : String :=
  if q.den = 1 then toString q.num else toString q.num ++ "/" ++ toString q.den

/-- `animate ? 'fade' : ''` (source line 57). -/
def fadeClass (animate : Bool) : String := if animate then "fade" else ""

/-- `animate ? 'grow' : ''` (source line 72). -/
def growClass (animate : Bool) : String := if animate then "grow" else ""

/-- `Math.max(10, (l.percentage / 100) * 120)` (source line 66). -/
def barWidth (percentage : ℚ) : ℚ := max 10 (percentage / 100 * 120)

/-- `langColors[l.name] || t.ring` (source line 67). -/
def langColor (t : Theme) (name : String) : String :=
  (langColorLookup name).getD t.ring

/-- The `css` template (source lines 43-54). -/
def css (t : Theme) : String :=
  "\n    .root \x7b font-family: -apple-system, BlinkMacSystemFont, \"Segoe UI\", Roboto, Helvetica, Arial, sans-serif; \x7d\n    .title \x7b font-weight: 700; font-size: 18px; fill: " ++ t.title ++
  "; \x7d\n    .stat-label \x7b font-size: 12px; fill: " ++ t.text ++
  "; font-weight: 400; opacity: 0.8; \x7d\n    .stat-value \x7b font-size: 16px; fill: " ++ t.text ++
  "; font-weight: 700; \x7d\n    .icon \x7b fill: " ++ t.icon ++
  "; \x7d\n    .lang-name \x7b font-size: 11px; fill: " ++ t.text ++
  "; \x7d\n    .fade \x7b opacity: 0; animation: fadeIn 0.8s ease-out forwards; \x7d\n    .grow \x7b transform: scaleX(0); transform-origin: left; animation: growIn 1s cubic-bezier(0.4,0,0.2,1) forwards; \x7d\n    @keyframes fadeIn \x7b to \x7b opacity: 1; \x7d \x7d\n    @keyframes growIn \x7b to \x7b transform: scaleX(1); \x7d \x7d\n  "

/-- The `renderStat` closure (source lines 56-62). -/
def renderStat (t : Theme) (animate : Bool) (x y : Nat) (icon label : String)
    (value : Nat) (delay : Nat) : String :=
  "\n    <g transform=\"translate(" ++ toString x ++ ", " ++ toString y ++
  ")\" class=\"" ++ fadeClass animate ++ "\" style=\"animation-delay:" ++ toString delay ++
  "ms\">\n      <path d=\"" ++ icon ++ "\" class=\"icon\" transform=\"scale(1.2)\"/>\n      <text x=\"28\" y=\"12\" class=\"stat-value\">" ++ toLocaleString value ++
  "</text>\n      <text x=\"0\" y=\"32\" class=\"stat-label\">" ++ label ++
  "</text>\n    </g>\n  "

/-- One row of the `renderLangs` closure (source lines 64-75), at 0-based
index `i`. -/
def renderLangRow (t : Theme) (animate : Bool) (i : Nat) (l : LangStat) : String :=
  "\n      <g transform=\"translate(0," ++ toString (i * 28) ++
  ")\">\n        <text y=\"10\" class=\"lang-name\">" ++ l.name ++
  "</text>\n        <rect x=\"70\" y=\"2\" width=\"120\" height=\"8\" rx=\"4\" fill=\"" ++ t.border ++
  "\" fill-opacity=\"0.4\"/>\n        <rect x=\"70\" y=\"2\" width=\"" ++ ratToString (barWidth l.percentage) ++
  "\" height=\"8\" rx=\"4\" fill=\"" ++ langColor t l.name ++
  "\" class=\"" ++ growClass animate ++ "\" style=\"animation-delay:" ++ toString ((i + 2) * 150) ++
  "ms\"/>\n      </g>\n    "

/-- `stats.topLanguages.slice(0,4).map((l,i) => ...).join('')`
(source lines 64-75). -/
def renderLangs (t : Theme) (animate : Bool) (langs : List LangStat) : String :=
  String.join (((langs.take 4).enum).map (fun p => renderLangRow t animate p.1 p.2))

/-- The opening of the SVG template up to the `<style>` element
(source lines 78-79). -/
def svgOpen : String :=
  "\n<svg width=\"" ++ toString width ++ "\" height=\"" ++ toString height ++
  "\" viewBox=\"0 0 " ++ toString width ++ " " ++ toString height ++
  "\" xmlns=\"http://www.w3.org/2000/svg\">\n  <style>"

/-- The `<defs>` gradient and background rectangle (source lines 80-86). -/
def svgDefsAndBg (t : Theme) : String :=
  "</style>\n  <defs>\n    <linearGradient id=\"grad\" x1=\"0\" y1=\"0\" x2=\"1\" y2=\"1\">\n      <stop offset=\"0%\" stop-color=\"" ++ t.bg0 ++
  "\"/>\n      <stop offset=\"100%\" stop-color=\"" ++ t.bg1 ++
  "\"/>\n    </linearGradient>\n  </defs>\n  <rect width=\"" ++ toString width ++
  "\" height=\"" ++ toString height ++
  "\" rx=\"10\" fill=\"url(#grad)\" stroke=\"" ++ t.border ++
  "\" stroke-width=\"1\"/>\n  <g class=\"root\" transform=\"translate(25,25)\">\n    <text x=\"0\" y=\"15\" class=\"title\">@"

/-- The divider rule beneath the title (source line 89). -/
def dividerLine (t : Theme) : String :=
  "</text>\n    <line x1=\"0\" y1=\"35\" x2=\"" ++ toString (width - 50) ++
  "\" y2=\"35\" stroke=\"" ++ t.border ++ "\" />\n    <g transform=\"translate(0,60)\">"

/-- The 2x2 grid of stat blocks (source lines 90-95). -/
def statGrid (t : Theme) (animate : Bool) (stats : GitHubStats) : String :=
  "\n      " ++ renderStat t animate 0 0 iconStar "Total Stars" stats.totalStars 100 ++
  "\n      " ++ renderStat t animate 110 0 iconCommit "Commits" stats.totalCommits 200 ++
  "\n      " ++ renderStat t animate 0 55 iconRepo "Repos" stats.totalRepos 300 ++
  "\n      " ++ renderStat t animate 110 55 iconFork "Forks" stats.totalForks 400 ++
  "\n    </g>"

/-- The language panel and the closing tags (source lines 96-100). -/
def langPanel (t : Theme) (animate : Bool) (langs : List LangStat) : String :=
  "\n    <g transform=\"translate(220,55)\">\n      " ++ renderLangs t animate langs ++
  "\n    </g>\n  </g>\n</svg>"

/-- `generateSVG` (source lines 38-101): theme resolution
`themes[themeKey] || themes.default` followed by the template literal of
lines 77-100. -/
def generateSVG (stats : GitHubStats) (themeKey : String) (animate : Bool) : String :=
  let t := (themeLookup themeKey).getD themeDefault
  svgOpen ++ css t ++ svgDefsAndBg t ++ stats.username ++ dividerLine t ++
    statGrid t animate stats ++ langPanel t animate stats.topLanguages

/-!
## Request layer (`parseBoolean`, `buildResponse`, source lines 103-221)

The upstream fetches are I/O; their results (the two `ok` flags and the
decoded JSON bodies) enter the embedded `buildResponse` as the explicit
`Upstream` argument. The `catch` branch of lines 213-220 (thrown transport
or JSON-decoding exceptions) is outside the pure model.
-/

/-- `parseBoolean` (source lines 103-106), with `null` as `none`. -/
def parseBoolean (value : Option String) (defaultValue : Bool) : Bool :=
  match value with
  | none => defaultValue
  | some v => !(v == "false")

/-- Theme resolution of lines 141-142:
`(themeParam && themes[themeParam]) ? themeParam : "default"` (an empty
string is falsy). -/
def resolveTheme (themeParam : Option String) : String :=
  match themeParam with
  | some k => if (!k.isEmpty && (themeLookup k).isSome) then k else "default"
  | none => "default"

/-- The JavaScript truthiness test `!username` on
`url.searchParams.get("username")` (lines 140, 145): missing parameter
(`null`) and empty string are both falsy. -/
def usernameMissing (usernameParam : Option String) : Bool :=
  match usernameParam with
  | some s => s.isEmpty
  | none => true

/-- The results of the two upstream fetches of lines 158-172, as consumed
by `buildResponse`: the two `ok` flags and the decoded JSON bodies. -/
structure Upstream where
  userOk : Bool
  reposOk : Bool
  userData : UserData
  repos : List Repo
deriving Repr, DecidableEq

/-- The `ResponsePayload` type (source line 4), with headers as an ordered
name/value list. -/
structure ResponsePayload where
  status : Nat
  headers : List (String × String)
  body : String
deriving Repr, DecidableEq

/-- The plain-text header list used by every non-SVG response. -/
def plainTextHeaders : List (String × String) :=
  [("Content-Type", "text/plain; charset=utf-8")]

/-- `buildResponse` (source lines 121-221) over a parsed request: the
`pathname` and the three query parameters (`none` for an absent
parameter), with the upstream fetch results passed in as `up`. -/
def buildResponse (pathname : String) (usernameParam themeParam animateParam : Option String)
    (up : Upstream) : ResponsePayload :=
  if pathname = "/" then
    { status := 200, headers := plainTextHeaders, body := "GitHub Stats API running" }
  else if pathname ≠ "/api/stats" then
    { status := 404, headers := plainTextHeaders, body := "Not Found" }
  else
    let theme := resolveTheme themeParam
    let animate := parseBoolean animateParam true
    if usernameMissing usernameParam then
      { status := 400, headers := plainTextHeaders, body := "Missing username" }
    else if !(up.userOk && up.reposOk) then
      { status := 502, headers := plainTextHeaders, body := "Error fetching data" }
    else
      let stats := aggregate up.userData up.repos
      { status := 200
        headers := [("Content-Type", "image/svg+xml"), ("Cache-Control", "public, max-age=1800")]
        body := generateSVG stats theme animate }

/-!
## Substring containment

`StrContains s pat` holds when `pat` occurs contiguously inside `s`; it is
used to state facts about the rendered document.
-/

/-- `pat` occurs contiguously inside `s`. -/
def StrContains (s pat : String) : Prop := pat.data <:+: s.data

instance (s pat : String) : Decidable (StrContains s pat) :=
  List.decidableInfix pat.data s.data

theorem strContains_suffix (a pat : String) : StrContains (a ++ pat) pat := by
  refine ⟨a.data, [], ?_⟩
  show a.data ++ pat.data ++ [] = a.data ++ pat.data
  simp

theorem strContains_prefix (pat b : String) : StrContains (pat ++ b) pat :=
  ⟨[], b.data, rfl⟩

theorem strContains_prefix3 (a b c d : String) :
    StrContains (a ++ (b ++ (c ++ d))) (a ++ (b ++ c)) := by
  have h : a ++ (b ++ (c ++ d)) = (a ++ (b ++ c)) ++ d := by
    simp [String.append_assoc]
  rw [h]
  exact strContains_prefix _ _

theorem StrContains.appendL {s pat : String} (t : String) (h : StrContains s pat) :
    StrContains (t ++ s) pat := by
  obtain ⟨u, v, huv⟩ := h
  refine ⟨t.data ++ u, v, ?_⟩
  show t.data ++ u ++ pat.data ++ v = t.data ++ s.data
  rw [← huv]
  simp

theorem StrContains.appendR {s pat : String} (t : String) (h : StrContains s pat) :
    StrContains (s ++ t) pat := by
  obtain ⟨u, v, huv⟩ := h
  refine ⟨u, v ++ t.data, ?_⟩
  show u ++ pat.data ++ (v ++ t.data) = s.data ++ t.data
  rw [← huv]
  simp

/-!
## Helper lemmas about the aggregation loop
-/

theorem foldl_aggStep_totalStars (repos : List Repo) (s : AggState) :
    (repos.foldl aggStep s).totalStars =
      s.totalStars + (repos.map (fun r => r.stargazers_count.getD 0)).sum := by
  induction repos generalizing s with
  | nil => simp
  | cons r rest ih => simp [List.foldl_cons, ih, aggStep, Nat.add_assoc]

theorem foldl_aggStep_totalForks (repos : List Repo) (s : AggState) :
    (repos.foldl aggStep s).totalForks =
      s.totalForks + (repos.map (fun r => r.forks_count.getD 0)).sum := by
  induction repos generalizing s with
  | nil => simp
  | cons r rest ih => simp [List.foldl_cons, ih, aggStep, Nat.add_assoc]

theorem foldl_aggStep_languages (repos : List Repo) (s : AggState) :
    (repos.foldl aggStep s).languages = repos.foldl langStep s.languages := by
  induction repos generalizing s with
  | nil => rfl
  | cons r rest ih => simp [List.foldl_cons, ih, aggStep]

/-- The sum of the occurrence counts stored in the `languages` object. -/
def sumVals (m : List (String × Nat)) : Nat := (m.map (fun e => e.2)).sum

theorem sumVals_bump (m : List (String × Nat)) (l : String) :
    sumVals (bump m l) = sumVals m + 1 := by
  induction m with
  | nil => rfl
  | cons e rest ih =>
    obtain ⟨k, c⟩ := e
    by_cases hk : k = l
    · simp [bump, hk, sumVals]
      omega
    · simp [bump, hk, sumVals] at ih ⊢
      omega

theorem sumVals_foldl_langStep (repos : List Repo) (m : List (String × Nat)) :
    sumVals (repos.foldl langStep m) =
      sumVals m + repos.countP (fun r => (langOf r).isSome) := by
  induction repos generalizing m with
  | nil => simp
  | cons r rest ih =>
    cases h : langOf r with
    | some l =>
      simp [List.foldl_cons, ih, langStep, h, sumVals_bump, List.countP_cons]
      omega
    | none =>
      simp [List.foldl_cons, ih, langStep, h, List.countP_cons]

theorem foldl_langStep_of_none (repos : List Repo) (m : List (String × Nat))
    (h : ∀ r ∈ repos, langOf r = none) : repos.foldl langStep m = m := by
  induction repos generalizing m with
  | nil => rfl
  | cons r rest ih =>
    have hr : langOf r = none := h r (List.mem_cons_self r rest)
    simp [List.foldl_cons, langStep, hr]
    exact ih m (fun x hx => h x (List.mem_cons_of_mem r hx))

theorem langCounts_eq_foldl (repos : List Repo) :
    langCounts repos = repos.foldl langStep [] := by
  rw [langCounts, aggLoop, foldl_aggStep_languages]

theorem foldl_add_eq_sum (l : List Nat) (a : Nat) :
    l.foldl (fun sum count => sum + count) a = a + l.sum := by
  induction l generalizing a with
  | nil => simp
  | cons x t ih => simp [List.foldl_cons, ih, Nat.add_assoc]

theorem totalLangCount_eq_sumVals (repos : List Repo) :
    totalLangCount repos = sumVals (langCounts repos) := by
  rw [totalLangCount, foldl_add_eq_sum, sumVals]
  simp

theorem totalLangCount_ne_zero (repos : List Repo)
    (h : ∃ r ∈ repos, langOf r ≠ none) : totalLangCount repos ≠ 0 := by
  rw [totalLangCount_eq_sumVals, langCounts_eq_foldl, sumVals_foldl_langStep]
  obtain ⟨r, hr, hlang⟩ := h
  have : 0 < repos.countP (fun r => (langOf r).isSome) := by
    rw [List.countP_pos_iff]
    exact ⟨r, hr, by simp [Option.isSome_iff_ne_none, hlang]⟩
  omega

theorem natCast_listSum (l : List ℕ) :
    ((l.sum : ℕ) : ℚ) = (l.map (fun n => (n : ℚ))).sum := by
  induction l with
  | nil => simp
  | cons a t ih => simp [ih]

theorem sum_map_percentage (L : List (String × Nat)) (T : ℕ) (hT : T ≠ 0) :
    (L.map (fun e => percentage e.2 T)).sum = ((sumVals L : ℕ) : ℚ) * (100 / (T : ℚ)) := by
  induction L with
  | nil => simp [sumVals]
  | cons e t ih =>
    have hTq : ((T : ℚ)) ≠ 0 := Nat.cast_ne_zero.mpr hT
    simp only [List.map_cons, List.sum_cons, ih, sumVals, List.map, Nat.cast_add]
    rw [percentage, if_pos hT]
    push_cast
    field_simp
    ring

/-!
## The claims
-/

/-- C1: for every repository list fed to the aggregation of `buildResponse`
(lines 174-184), `totalStars` is the sum of the entries' stargazer counts
and `totalForks` the sum of their fork counts, an absent count contributing
`0`; the embedded functions are total, so no input errors or produces a
non-numeric result. -/
theorem totals_are_sums (u : UserData) (repos : List Repo) :
    (aggregate u repos).totalStars = (repos.map (fun r => r.stargazers_count.getD 0)).sum ∧
    (aggregate u repos).totalForks = (repos.map (fun r => r.forks_count.getD 0)).sum := by
  constructor
  · show (aggLoop repos).totalStars = _
    rw [aggLoop, foldl_aggStep_totalStars]
    simp
  · show (aggLoop repos).totalForks = _
    rw [aggLoop, foldl_aggStep_totalForks]
    simp

/-- C5, counterexample: `totalRepos` is not the length of the fetched
repository list. With a profile whose `public_repos` is `5` and a fetched
list of `2` entries (line 197 copies `userData.public_repos`), the
aggregate has `totalRepos = 5 ≠ 2`. -/
theorem totalRepos_ne_list_length :
    (aggregate ⟨"alice", 5⟩
        [⟨some 1, some 1, none⟩, ⟨some 2, some 0, none⟩]).totalRepos = 5 ∧
    ([(⟨some 1, some 1, none⟩ : Repo), ⟨some 2, some 0, none⟩]).length = 2 ∧
    (5 : Nat) ≠ 2 := by
  exact ⟨rfl, rfl, by decide⟩

/-- C5, amended: `totalRepos` is the non-negative `public_repos` count of
the fetched profile (line 197), not the number of entries of the (at most
100-entry) fetched repository list. -/
theorem totalRepos_from_profile (u : UserData) (repos : List Repo) :
    (aggregate u repos).totalRepos = u.public_repos := rfl

/-- C10: a request to `/api/stats` whose `username` parameter is the empty
string is answered exactly like one with the parameter absent — status
400 with body `Missing username` (lines 140-151) — and the response does
not depend on the upstream fetch results, i.e. no fetched data is
aggregated or rendered. -/
theorem empty_username_bad_request (tp ap : Option String) (u1 u2 : Upstream) :
    buildResponse "/api/stats" (some "") tp ap u1 = buildResponse "/api/stats" none tp ap u2 ∧
    (buildResponse "/api/stats" (some "") tp ap u1).status = 400 ∧
    (buildResponse "/api/stats" (some "") tp ap u1).body = "Missing username" :=
  ⟨rfl, rfl, rfl⟩

/-- C6: when no repository entry carries a (truthy) language, the
aggregation produces an empty `topLanguages`, and the percentage
computation of line 192 explicitly guards the zero-denominator case,
yielding `0` instead of a division result. -/
theorem no_languages_empty (u : UserData) (repos : List Repo)
    (h : ∀ r ∈ repos, langOf r = none) :
    (aggregate u repos).topLanguages = [] ∧ ∀ c, percentage c 0 = 0 := by
  constructor
  · show topLanguagesOf repos = []
    have hl : langCounts repos = [] := by
      rw [langCounts_eq_foldl, foldl_langStep_of_none repos [] h]
    rw [topLanguagesOf, hl]
    rfl
  · intro c
    simp [percentage]

/-- Witness for C6 at a concrete list: one entry without language field and
one with the (falsy) empty-string language. -/
theorem no_languages_empty_witness :
    (aggregate ⟨"u", 0⟩ [⟨some 1, some 2, none⟩, ⟨none, none, some ""⟩]).topLanguages = [] ∧
    percentage 7 0 = 0 := by
  have h := no_languages_empty ⟨"u", 0⟩ [⟨some 1, some 2, none⟩, ⟨none, none, some ""⟩]
    (by decide)
  exact ⟨h.1, h.2 7⟩

/-- C7: when at least one repository entry carries a language, the
percentages of all `topLanguages` entries (not only the four the renderer
draws) sum to exactly `100` over the exact rationals. -/
theorem percentages_sum_100 (u : UserData) (repos : List Repo)
    (h : ∃ r ∈ repos, langOf r ≠ none) :
    ((aggregate u repos).topLanguages.map (fun e => e.percentage)).sum = 100 := by
  have hT : totalLangCount repos ≠ 0 := totalLangCount_ne_zero repos h
  have hTq : ((totalLangCount repos : ℕ) : ℚ) ≠ 0 := Nat.cast_ne_zero.mpr hT
  show ((topLanguagesOf repos).map (fun e => e.percentage)).sum = 100
  rw [topLanguagesOf, List.map_map]
  have hperm : List.Perm (sortDesc (langCounts repos)) (langCounts repos) :=
    List.perm_insertionSort byCountDesc (langCounts repos)
  have hsum := (hperm.map
    (fun e : String × Nat => percentage e.2 (totalLangCount repos))).sum_eq
  have h1 : ((sortDesc (langCounts repos)).map
        ((fun e : LangStat => e.percentage) ∘
          (fun e : String × Nat =>
            ({ name := e.1, count := e.2,
               percentage := percentage e.2 (totalLangCount repos) } : LangStat)))).sum
      = ((sortDesc (langCounts repos)).map
        (fun e : String × Nat => percentage e.2 (totalLangCount repos))).sum := rfl
  rw [h1, hsum, sum_map_percentage _ _ hT, ← totalLangCount_eq_sumVals]
  field_simp

/-- Witness for C7 at the spec's example list (two `Go` entries, one
`Rust`). -/
theorem percentages_sum_100_witness :
    ((aggregate ⟨"alice", 3⟩
        [⟨some 10, some 2, some "Go"⟩, ⟨some 5, some 1, some "Go"⟩,
         ⟨some 0, some 0, some "Rust"⟩]).topLanguages.map (fun e => e.percentage)).sum = 100 :=
  percentages_sum_100 ⟨"alice", 3⟩
    [⟨some 10, some 2, some "Go"⟩, ⟨some 5, some 1, some "Go"⟩,
     ⟨some 0, some 0, some "Rust"⟩]
    ⟨⟨some 10, some 2, some "Go"⟩, by decide, by decide⟩

/-!
## Sortedness, stability and encounter order (C2)
-/

theorem keys_bump (m : List (String × Nat)) (l : String) :
    (bump m l).map (fun e => e.1) =
      if l ∈ m.map (fun e => e.1) then m.map (fun e => e.1)
      else m.map (fun e => e.1) ++ [l] := by
  induction m with
  | nil => simp [bump]
  | cons e rest ih =>
    obtain ⟨k, c⟩ := e
    by_cases hk : k = l
    · simp [bump, hk]
    · simp only [bump, if_neg hk, List.map_cons, ih, List.mem_cons]
      by_cases hm : l ∈ rest.map (fun e => e.1)
      · simp [hm, hk, Ne.symm hk]
      · simp [hm, hk, Ne.symm hk]

theorem keys_langStep (m : List (String × Nat)) (r : Repo) :
    (langStep m r).map (fun e => e.1) = firstStep (m.map (fun e => e.1)) r := by
  cases h : langOf r with
  | some l => simp [langStep, firstStep, h, keys_bump]
  | none => simp [langStep, firstStep, h]

theorem keys_foldl_langStep (repos : List Repo) (m : List (String × Nat)) :
    (repos.foldl langStep m).map (fun e => e.1) =
      repos.foldl firstStep (m.map (fun e => e.1)) := by
  induction repos generalizing m with
  | nil => rfl
  | cons r rest ih => simp [List.foldl_cons, ih, keys_langStep]

theorem langCounts_keys_firstLangs (repos : List Repo) :
    (langCounts repos).map (fun e => e.1) = firstLangs repos := by
  rw [langCounts_eq_foldl, keys_foldl_langStep]
  rfl

theorem filter_orderedInsert (c : Nat) (x : String × Nat) (l : List (String × Nat)) :
    (List.orderedInsert byCountDesc x l).filter (fun e => e.2 == c) =
      if x.2 = c then x :: l.filter (fun e => e.2 == c)
      else l.filter (fun e => e.2 == c) := by
  induction l with
  | nil =>
    by_cases hx : x.2 = c <;> simp [List.orderedInsert, List.filter_cons, hx]
  | cons b t ih =>
    by_cases hxb : byCountDesc x b
    · rw [List.orderedInsert, if_pos hxb]
      by_cases hx : x.2 = c <;> simp [List.filter_cons, hx]
    · rw [List.orderedInsert, if_neg hxb]
      have hgt : x.2 < b.2 := Nat.lt_of_not_le hxb
      by_cases hb : b.2 = c
      · have hx : ¬x.2 = c := by omega
        simp [List.filter_cons, hb, hx, ih]
      · by_cases hx : x.2 = c <;> simp [List.filter_cons, hb, hx, ih]

theorem filter_sortDesc (c : Nat) (l : List (String × Nat)) :
    (sortDesc l).filter (fun e => e.2 == c) = l.filter (fun e => e.2 == c) := by
  induction l with
  | nil => rfl
  | cons x t ih =>
    show (List.orderedInsert byCountDesc x (sortDesc t)).filter _ = _
    rw [filter_orderedInsert]
    by_cases hx : x.2 = c <;> simp [List.filter_cons, hx, ih]

theorem percentage_nonneg_le_100 (c T : Nat) (hc : c ≤ T) :
    0 ≤ percentage c T ∧ percentage c T ≤ 100 := by
  by_cases hT : T = 0
  · simp [percentage, hT]
  · have hTq : (0 : ℚ) < (T : ℚ) := by
      exact_mod_cast Nat.pos_of_ne_zero hT
    constructor
    · rw [percentage, if_pos hT]
      positivity
    · rw [percentage, if_pos hT]
      have hdiv : (c : ℚ) / (T : ℚ) ≤ 1 := by
        rw [div_le_one hTq]
        exact_mod_cast hc
      calc (c : ℚ) / (T : ℚ) * 100 ≤ 1 * 100 := by
            exact mul_le_mul_of_nonneg_right hdiv (by norm_num)
        _ = 100 := by norm_num

/-- C2: `topLanguages` is ordered by count descending; languages with equal
counts keep the order of the `languages` object, whose key order is the
order of first encounter in the repository list (stable sort); every
percentage lies in `[0, 100]`. -/
theorem topLanguages_sorted_stable (u : UserData) (repos : List Repo) :
    (aggregate u repos).topLanguages.Pairwise (fun a b => b.count ≤ a.count) ∧
    (∀ c : Nat,
      (((aggregate u repos).topLanguages.filter (fun e => e.count == c)).map (fun e => e.name)) =
        (((langCounts repos).filter (fun e => e.2 == c)).map (fun e => e.1))) ∧
    (langCounts repos).map (fun e => e.1) = firstLangs repos ∧
    (∀ e ∈ (aggregate u repos).topLanguages, 0 ≤ e.percentage ∧ e.percentage ≤ 100) := by
  refine ⟨?_, ?_, langCounts_keys_firstLangs repos, ?_⟩
  · show (topLanguagesOf repos).Pairwise _
    rw [topLanguagesOf, List.pairwise_map]
    exact List.sorted_insertionSort byCountDesc (langCounts repos)
  · intro c
    show (((topLanguagesOf repos).filter _).map _) = _
    rw [topLanguagesOf, List.filter_map, List.map_map]
    have h1 : ((sortDesc (langCounts repos)).filter
          ((fun e : LangStat => e.count == c) ∘
            (fun e : String × Nat =>
              ({ name := e.1, count := e.2,
                 percentage := percentage e.2 (totalLangCount repos) } : LangStat)))) =
        ((sortDesc (langCounts repos)).filter (fun e => e.2 == c)) := rfl
    rw [h1, filter_sortDesc]
    rfl
  · intro e he
    have : e ∈ topLanguagesOf repos := he
    rw [topLanguagesOf, List.mem_map] at this
    obtain ⟨a, ha, hae⟩ := this
    have haL : a ∈ langCounts repos := by
      rw [sortDesc, List.mem_insertionSort] at ha
      exact ha
    have hle : a.2 ≤ totalLangCount repos := by
      rw [totalLangCount_eq_sumVals]
      exact List.le_sum_of_mem (List.mem_map_of_mem (fun e => e.2) haL)
    have := percentage_nonneg_le_100 a.2 (totalLangCount repos) hle
    rw [← hae]
    exact this

/-- Witness for C2 at the spec's example list: two `Go` entries then one
`Rust`, so `Go` (count 2, percentage 200/3) precedes `Rust`. -/
theorem topLanguages_sorted_stable_witness :
    ((aggregate ⟨"alice", 3⟩
        [⟨some 10, some 2, some "Go"⟩, ⟨some 5, some 1, some "Go"⟩,
         ⟨some 0, some 0, some "Rust"⟩]).topLanguages.Pairwise
      (fun a b => b.count ≤ a.count)) ∧
    (((aggregate ⟨"alice", 3⟩
        [⟨some 10, some 2, some "Go"⟩, ⟨some 5, some 1, some "Go"⟩,
         ⟨some 0, some 0, some "Rust"⟩]).topLanguages.filter
        (fun e => e.count == 1)).map (fun e => e.name)) =
      (((langCounts
        [⟨some 10, some 2, some "Go"⟩, ⟨some 5, some 1, some "Go"⟩,
         ⟨some 0, some 0, some "Rust"⟩]).filter (fun e => e.2 == 1)).map (fun e => e.1)) ∧
    ((langCounts
        [⟨some 10, some 2, some "Go"⟩, ⟨some 5, some 1, some "Go"⟩,
         ⟨some 0, some 0, some "Rust"⟩]).map (fun e => e.1) =
      firstLangs
        [⟨some 10, some 2, some "Go"⟩, ⟨some 5, some 1, some "Go"⟩,
         ⟨some 0, some 0, some "Rust"⟩]) ∧
    (0 ≤ percentage 2 3 ∧ percentage 2 3 ≤ 100) := by
  have h := topLanguages_sorted_stable ⟨"alice", 3⟩
    [⟨some 10, some 2, some "Go"⟩, ⟨some 5, some 1, some "Go"⟩,
     ⟨some 0, some 0, some "Rust"⟩]
  have hl : (aggregate ⟨"alice", 3⟩
      [⟨some 10, some 2, some "Go"⟩, ⟨some 5, some 1, some "Go"⟩,
       ⟨some 0, some 0, some "Rust"⟩]).topLanguages =
      [{ name := "Go", count := 2, percentage := percentage 2 3 },
       { name := "Rust", count := 1, percentage := percentage 1 3 }] := rfl
  have hmem : ({ name := "Go", count := 2, percentage := percentage 2 3 } : LangStat) ∈
      (aggregate ⟨"alice", 3⟩
        [⟨some 10, some 2, some "Go"⟩, ⟨some 5, some 1, some "Go"⟩,
         ⟨some 0, some 0, some "Rust"⟩]).topLanguages := by
    rw [hl]
    exact List.mem_cons_self _ _
  exact ⟨h.1, h.2.1 1, h.2.2.1, h.2.2.2 _ hmem⟩

/-!
## Rendered-document lemmas (C3, C4, C8, C9)
-/

/-- `generateSVG` with its theme `let` resolved. -/
theorem generateSVG_eq (stats : GitHubStats) (themeKey : String) (animate : Bool) :
    generateSVG stats themeKey animate =
      svgOpen ++ css ((themeLookup themeKey).getD themeDefault) ++
        svgDefsAndBg ((themeLookup themeKey).getD themeDefault) ++ stats.username ++
        dividerLine ((themeLookup themeKey).getD themeDefault) ++
        statGrid ((themeLookup themeKey).getD themeDefault) animate stats ++
        langPanel ((themeLookup themeKey).getD themeDefault) animate stats.topLanguages := rfl

theorem renderStat_contains_delay (t : Theme) (animate : Bool) (x y : Nat)
    (icon label : String) (value delay : Nat) :
    StrContains (renderStat t animate x y icon label value delay)
      " style=\"animation-delay:" := by
  unfold renderStat
  apply StrContains.appendR
  apply StrContains.appendR
  apply StrContains.appendR
  apply StrContains.appendR
  apply StrContains.appendR
  apply StrContains.appendR
  apply StrContains.appendR
  apply StrContains.appendR
  rw [show ("\" style=\"animation-delay:" : String) =
    "\"" ++ " style=\"animation-delay:" from rfl]
  rw [← String.append_assoc]
  exact strContains_suffix _ _

theorem statGrid_contains_delay (t : Theme) (animate : Bool) (stats : GitHubStats) :
    StrContains (statGrid t animate stats) " style=\"animation-delay:" := by
  unfold statGrid
  apply StrContains.appendR
  apply StrContains.appendR
  apply StrContains.appendR
  apply StrContains.appendR
  apply StrContains.appendR
  apply StrContains.appendR
  apply StrContains.appendR
  apply StrContains.appendL
  exact renderStat_contains_delay t animate 0 0 iconStar "Total Stars" stats.totalStars 100

theorem generateSVG_contains_delay (stats : GitHubStats) (themeKey : String) (animate : Bool) :
    StrContains (generateSVG stats themeKey animate) " style=\"animation-delay:" := by
  rw [generateSVG_eq]
  apply StrContains.appendR
  apply StrContains.appendL
  exact statGrid_contains_delay _ animate stats

theorem renderStat_false_contains_emptyclass (t : Theme) (x y : Nat)
    (icon label : String) (value delay : Nat) :
    StrContains (renderStat t false x y icon label value delay)
      "class=\"\" style=\"animation-delay:" := by
  unfold renderStat
  rw [show fadeClass false = "" from rfl, String.append_empty]
  rw [show (")\" class=\"" : String) = ")\" " ++ "class=\"" from rfl]
  simp only [String.append_assoc]
  apply StrContains.appendL
  apply StrContains.appendL
  apply StrContains.appendL
  apply StrContains.appendL
  apply StrContains.appendL
  rw [← String.append_assoc]
  rw [show ("class=\"" ++ "\" style=\"animation-delay:" : String) =
    "class=\"\" style=\"animation-delay:" from rfl]
  exact strContains_prefix _ _

theorem statGrid_false_contains_emptyclass (t : Theme) (stats : GitHubStats) :
    StrContains (statGrid t false stats) "class=\"\" style=\"animation-delay:" := by
  unfold statGrid
  apply StrContains.appendR
  apply StrContains.appendR
  apply StrContains.appendR
  apply StrContains.appendR
  apply StrContains.appendR
  apply StrContains.appendR
  apply StrContains.appendR
  apply StrContains.appendL
  exact renderStat_false_contains_emptyclass t 0 0 iconStar "Total Stars" stats.totalStars 100

theorem generateSVG_false_contains_emptyclass (stats : GitHubStats) (themeKey : String) :
    StrContains (generateSVG stats themeKey false) "class=\"\" style=\"animation-delay:" := by
  rw [generateSVG_eq]
  apply StrContains.appendR
  apply StrContains.appendL
  exact statGrid_false_contains_emptyclass _ stats

theorem dividerLine_contains (t : Theme) :
    StrContains (dividerLine t)
      "<line x1=\"0\" y1=\"35\" x2=\"410\" y2=\"35\" stroke=\"" := by
  unfold dividerLine
  rw [show toString (width - 50) = "410" from rfl]
  rw [show ("</text>\n    <line x1=\"0\" y1=\"35\" x2=\"" : String) =
    "</text>\n    " ++ "<line x1=\"0\" y1=\"35\" x2=\"" from rfl]
  simp only [String.append_assoc]
  apply StrContains.appendL
  rw [← String.append_assoc, ← String.append_assoc]
  rw [show (("<line x1=\"0\" y1=\"35\" x2=\"" ++ "410") ++ "\" y2=\"35\" stroke=\"" : String) =
    "<line x1=\"0\" y1=\"35\" x2=\"410\" y2=\"35\" stroke=\"" from rfl]
  exact strContains_prefix _ _

theorem generateSVG_contains_divider (stats : GitHubStats) (themeKey : String) (animate : Bool) :
    StrContains (generateSVG stats themeKey animate)
      "<line x1=\"0\" y1=\"35\" x2=\"410\" y2=\"35\" stroke=\"" := by
  rw [generateSVG_eq]
  apply StrContains.appendR
  apply StrContains.appendR
  apply StrContains.appendL
  exact dividerLine_contains _

theorem renderLangRow_contains_barWidth (t : Theme) (animate : Bool) (i : Nat) (l : LangStat) :
    StrContains (renderLangRow t animate i l)
      ("<rect x=\"70\" y=\"2\" width=\"" ++ ratToString (barWidth l.percentage) ++
        "\" height=\"8\" rx=\"4\" fill=\"") := by
  unfold renderLangRow
  rw [show ("\" fill-opacity=\"0.4\"/>\n        <rect x=\"70\" y=\"2\" width=\"" : String) =
    "\" fill-opacity=\"0.4\"/>\n        " ++ "<rect x=\"70\" y=\"2\" width=\"" from rfl]
  simp only [String.append_assoc]
  apply StrContains.appendL
  apply StrContains.appendL
  apply StrContains.appendL
  apply StrContains.appendL
  apply StrContains.appendL
  apply StrContains.appendL
  apply StrContains.appendL
  exact strContains_prefix3 _ _ _ _

/-!
## The rendering claims
-/

/-- C3, counterexample: the claim that with `animate = false` the body
contains no animation delay attributes is false — `renderStat` (line 57)
and the language bars (line 72) emit `style="animation-delay:..."`
unconditionally, so the document of the spec's own example
(`theme=ocean`, `animate=false`) contains such an attribute. -/
theorem animate_false_still_has_delay_attr :
    StrContains
      (generateSVG
        { username := "alice", totalRepos := 3, totalStars := 15, totalForks := 3,
          totalCommits := 0, topLanguages := [] } "ocean" false)
      " style=\"animation-delay:" :=
  generateSVG_contains_delay _ "ocean" false

/-- C3, amended: when `animate` is false every stat block and language bar
is emitted with an empty animation class (`fade`/`grow` are only attached
when `animate` is true, lines 57 and 72), so all elements render at their
final state; the `animation-delay` style attributes are still present in
the body, but are inert without the animation classes. -/
theorem animate_false_renders_final_state (stats : GitHubStats) (themeKey : String) :
    fadeClass false = "" ∧ growClass false = "" ∧
    StrContains (generateSVG stats themeKey false) "class=\"\" style=\"animation-delay:" :=
  ⟨rfl, rfl, generateSVG_false_contains_emptyclass stats themeKey⟩

/-- C4, counterexample: the divider's right endpoint (line 89) is
`width - 50 = 410`, not `width - 75 = 385`: the claim's span of
`canvasWidth - 75` units is wrong. -/
theorem divider_span_counterexample :
    StrContains
      (generateSVG
        { username := "alice", totalRepos := 3, totalStars := 15, totalForks := 3,
          totalCommits := 0, topLanguages := [] } "default" true)
      "<line x1=\"0\" y1=\"35\" x2=\"410\" y2=\"35\" stroke=\"" ∧
    width - 50 = 410 ∧ width - 75 = 385 ∧ (410 : ℕ) ≠ 385 :=
  ⟨generateSVG_contains_divider _ "default" true, by decide, by decide, by decide⟩

/-- C4, amended: every document produced by `generateSVG` contains the
horizontal divider rule at `y = 35` running from `x = 0` to
`x = canvasWidth - 50 = 410` in content coordinates (line 89). -/
theorem divider_span (stats : GitHubStats) (themeKey : String) (animate : Bool) :
    StrContains (generateSVG stats themeKey animate)
      "<line x1=\"0\" y1=\"35\" x2=\"410\" y2=\"35\" stroke=\"" ∧
    410 = width - 50 :=
  ⟨generateSVG_contains_divider stats themeKey animate, by decide⟩

/-- C8: every rendered language row carries a foreground bar of width
`barWidth l.percentage = max 10 (percentage / 100 * 120)` (line 66); in
particular a percentage of `0.01` still gives a width of at least `10`,
and a percentage of `100` gives exactly `120`. -/
theorem bar_width_rule :
    (∀ (t : Theme) (animate : Bool) (i : Nat) (l : LangStat),
      StrContains (renderLangRow t animate i l)
        ("<rect x=\"70\" y=\"2\" width=\"" ++ ratToString (barWidth l.percentage) ++
          "\" height=\"8\" rx=\"4\" fill=\"")) ∧
    (∀ p : ℚ, barWidth p = max 10 (p / 100 * 120)) ∧
    10 ≤ barWidth (1 / 100) ∧ barWidth 100 = 120 := by
  refine ⟨renderLangRow_contains_barWidth, fun p => rfl, le_max_left _ _, ?_⟩
  rw [barWidth]
  norm_num

/-- C9: a theme key that is none of `default`, `ocean`, `midnight` renders
identically to `default` (line 39 falls back to `themes.default`), and the
request path resolves such a key to `"default"` without erroring
(lines 141-142). -/
theorem unknown_theme_renders_default (stats : GitHubStats) (animate : Bool) (key : String)
    (h : key ≠ "default" ∧ key ≠ "ocean" ∧ key ≠ "midnight") :
    generateSVG stats key animate = generateSVG stats "default" animate ∧
    resolveTheme (some key) = "default" := by
  have h1 : (("default" : String) == key) = false :=
    beq_eq_false_iff_ne.mpr (Ne.symm h.1)
  have h2 : (("ocean" : String) == key) = false :=
    beq_eq_false_iff_ne.mpr (Ne.symm h.2.1)
  have h3 : (("midnight" : String) == key) = false :=
    beq_eq_false_iff_ne.mpr (Ne.symm h.2.2)
  have hlook : themeLookup key = none := by
    simp [themeLookup, themes, List.find?, h1, h2, h3]
  constructor
  · rw [generateSVG_eq, generateSVG_eq, hlook]
    rfl
  · simp [resolveTheme, hlook]

/-- Witness for C9: the key `nonexistent` renders as `default` and
resolves to `default`. -/
theorem unknown_theme_renders_default_witness :
    generateSVG
        { username := "alice", totalRepos := 3, totalStars := 15, totalForks := 3,
          totalCommits := 0, topLanguages := [] } "nonexistent" true =
      generateSVG
        { username := "alice", totalRepos := 3, totalStars := 15, totalForks := 3,
          totalCommits := 0, topLanguages := [] } "default" true ∧
    resolveTheme (some "nonexistent") = "default" :=
  unknown_theme_renders_default
    { username := "alice", totalRepos := 3, totalStars := 15, totalForks := 3,
      totalCommits := 0, topLanguages := [] } true "nonexistent"
    ⟨by decide, by decide, by decide⟩

end GitState
